import Mathlib

/-!
Verification of the `unbound` native binding (`node_unbound.cc`): a shallow
embedding of the binding's argument marshaling, error translation, context
lifecycle and the async resolve worker, with theorems settling the spec's
claims about it.

Conventions of the embedding:
* JavaScript argument vectors are `List JsValue`; reading past the end of the
  vector yields `JsValue.undef`, as in V8.
* Native engine calls (`ub_ctx_create`, `ub_resolve`, `ub_strerror`, ...) are
  external collaborators: their outcomes are passed in as explicit parameters,
  and the calls the binding makes to them are recorded in the outcome
  structures (call selectors, free counters).
* C `char *` values that may be NULL are `Option String`; a C string that is
  present but empty is `some ""`.
-/

/-- A JavaScript value as discriminated by the binding's type checks
(`IsString`, `IsNumber`, `IsBoolean`, `IsFunction`). `undef` is the value read
when indexing past the argument vector. -/
inductive JsValue where
  | str (s : String)
  | num (n : Int)
  | boolean (b : Bool)
  | fn
  | nullv
  | undef
  deriving Repr, DecidableEq

namespace JsValue

/-- `info[i]->IsString()`. -/
def isString : JsValue → Bool
  | .str _ => true
  | _ => false

/-- `info[i]->IsNumber()`. -/
def isNumber : JsValue → Bool
  | .num _ => true
  | _ => false

/-- `info[i]->IsBoolean()`. -/
def isBoolean : JsValue → Bool
  | .boolean _ => true
  | _ => false

/-- `info[i]->IsFunction()`. -/
def isFunction : JsValue → Bool
  | .fn => true
  | _ => false

/-- The string payload of a string value (`Nan::Utf8String`); other values do
not reach this accessor in the embedded paths. -/
def asString : JsValue → String
  | .str s => s
  | _ => ""

/-- JavaScript `ToBoolean` coercion, as performed by `Nan::To<bool>`:
`undefined` and `null` coerce to `false`, numbers to `n ~= 0`, strings to
nonemptiness. -/
def toBool : JsValue → Bool
  | .str s => s ≠ ""
  | .num n => n ≠ 0
  | .boolean b => b
  | .fn => true
  | .nullv => false
  | .undef => false

end JsValue

/-- `info[i]`: indexing the V8 argument vector, `undefined` past the end. -/
def arg (args : List JsValue) (i : Nat) : JsValue :=
  args.getD i JsValue.undef

/-- `nu_strerror` (node_unbound.cc:4-21): translate an engine status string.
The argument is what `ub_strerror` returned (`none` for NULL). A NULL message
becomes `"unknown error"`; a message longer than 256 characters is likewise
REPLACED by `"unknown error"` (the source substitutes, it does not truncate);
the result is prefixed with `"libunbound: "`. -/
def nu_strerror (engMsg : Option String) : String :=
  let msg := match engMsg with
    | none => "unknown error"
    | some s => s
  let msg := if msg.length > 256 then "unknown error" else msg
  "libunbound: " ++ msg

/-- Outcome of `ub_strerror` for a given status, supplied by the engine. -/
structure StrErr where
  msg : Option String
  deriving Repr, DecidableEq

/-! ## Context handle lifecycle -/

/-- The native state slot of a context handle: `true` iff `ub->ctx` is
non-NULL. -/
structure CtxState where
  ctx : Bool
  deriving Repr, DecidableEq

/-- `NodeUnbound::~NodeUnbound` (node_unbound.cc:29-34): if `ctx` is non-NULL,
call `ub_ctx_delete` and NULL the field. Returns the state after the run and
the number of `ub_ctx_delete` calls made by this run. -/
def destructor (s : CtxState) : CtxState × Nat :=
  if s.ctx then (⟨false⟩, 1) else (s, 0)

/-- Outcomes of the native calls made during `NodeUnbound::New`:
whether `ub_ctx_create` returned non-NULL, and the statuses reported by
`ub_ctx_debugout` and `ub_ctx_debuglevel`. -/
structure NewEnv where
  createOk : Bool
  debugoutErr : Int
  debuglevelErr : Int
  deriving Repr, DecidableEq

/-- How `NodeUnbound::New` failed, when it did. -/
inductive InitFailure where
  | createFailed
  | setupFailed (err : Int)
  deriving Repr, DecidableEq

/-- Observable outcome of `NodeUnbound::New`: the error thrown (if any),
whether `ub->ctx` still holds the native state when the call returns, and the
number of `ub_ctx_delete` calls made during `New` itself. -/
structure NewOutcome where
  thrown : Option InitFailure
  ctxHeld : Bool
  deletesInNew : Nat
  deriving Repr, DecidableEq

/-- `NodeUnbound::New` (node_unbound.cc:81-104): `ub->ctx = ub_ctx_create()`;
throw if NULL; then `ub_ctx_debugout(ctx, NULL)` and `ub_ctx_debuglevel(ctx, 0)`,
throwing on nonzero status. The source contains no `ub_ctx_delete` call on any
of these paths: a setup failure throws while `ub->ctx` still holds the state
(release happens only when the wrapped object's destructor later runs). -/
def New (env : NewEnv) : NewOutcome :=
  if env.createOk = false then
    ⟨some .createFailed, false, 0⟩
  else if env.debugoutErr ≠ 0 then
    ⟨some (.setupFailed env.debugoutErr), true, 0⟩
  else if env.debuglevelErr ≠ 0 then
    ⟨some (.setupFailed env.debuglevelErr), true, 0⟩
  else
    ⟨none, true, 0⟩

/-! ## getOption -/

/-- Outcomes of the native calls made during `NodeUnbound::GetOption`:
the status of `ub_ctx_get_option`, the `ub_strerror` text for that status, and
the value pointer the engine wrote (`none` for NULL). -/
structure GetOptionEngine where
  status : Int
  strerrMsg : Option String
  value : Option String
  deriving Repr, DecidableEq

/-- What `NodeUnbound::GetOption` hands back to JavaScript. -/
inductive GetOptionRet where
  | thrown (msg : String)
  | retNull
  | retStr (s : String)
  deriving Repr, DecidableEq

/-- Observable outcome of `NodeUnbound::GetOption`: the return/throw, and
whether `free(value)` was invoked on the engine-allocated buffer. -/
structure GetOptionOutcome where
  ret : GetOptionRet
  valueFreed : Bool
  deriving Repr, DecidableEq

/-- `NodeUnbound::GetOption` (node_unbound.cc:132-158): one string argument;
nonzero engine status throws the translated message; a NULL value pointer
returns JavaScript `null`; otherwise the value string is returned and the
engine-allocated buffer is `free`d before returning. -/
def GetOption (args : List JsValue) (eng : GetOptionEngine) : GetOptionOutcome :=
  if args.length ≠ 1 then
    ⟨.thrown "unbound.getOption() requires arguments.", false⟩
  else if ¬(arg args 0).isString then
    ⟨.thrown "First argument must be a string.", false⟩
  else if eng.status ≠ 0 then
    ⟨.thrown (nu_strerror eng.strerrMsg), false⟩
  else
    match eng.value with
    | none => ⟨.retNull, false⟩
    | some v => ⟨.retStr v, true⟩

/-! ## addTrustAnchorFile -/

/-- Which engine entry point `NodeUnbound::AddTrustAnchorFile` invoked. -/
inductive TaCall where
  | ta_autr (fname : String)
  | ta_file (fname : String)
  deriving Repr, DecidableEq

/-- Observable outcome of `NodeUnbound::AddTrustAnchorFile`: the synchronous
error thrown during validation (if any) and the engine call made. -/
structure TaOutcome where
  thrown : Option String
  engineCall : Option TaCall
  deriving Repr, DecidableEq

/-- `NodeUnbound::AddTrustAnchorFile` (node_unbound.cc:291-319): validates two
arguments (string, boolean), but then reads the selector from `info[2]` —
one past the validated vector, hence always `undefined`, which `Nan::To<bool>`
coerces to `false` — so the `ub_ctx_add_ta_autr` branch is unreachable through
this entry point. The read of index 2 is kept verbatim from the source. -/
def AddTrustAnchorFile (args : List JsValue) : TaOutcome :=
  if args.length ≠ 2 then
    ⟨some "unbound.addTrustAnchorFile() requires arguments.", none⟩
  else if ¬(arg args 0).isString then
    ⟨some "First argument must be a string.", none⟩
  else if ¬(arg args 1).isBoolean then
    ⟨some "Second argument must be a boolean.", none⟩
  else
    let fname := (arg args 0).asString
    let autr := (arg args 2).toBool
    if autr then
      ⟨none, some (.ta_autr fname)⟩
    else
      ⟨none, some (.ta_file fname)⟩

/-! ## The async resolve worker -/

/-- The engine's `struct ub_result`, as read by the binding: the answer packet
bytes with their length, the DNSSEC flags, and the `why_bogus` diagnostic
pointer (`none` for NULL). -/
structure UbResult where
  answer_packet : List Nat
  answer_len : Nat
  secure : Bool
  bogus : Bool
  why_bogus : Option String
  deriving Repr, DecidableEq

/-- The Answer delivered to the JavaScript callback by the worker: the four
slots of the returned array. `reason = none` is JavaScript `null`. -/
structure Answer where
  bytes : List Nat
  secure : Bool
  bogus : Bool
  reason : Option String
  deriving Repr, DecidableEq

/-- `NodeUnboundWorker::HandleOKCallback` (node_unbound.cc:486-511):
`Nan::CopyBuffer(pkt, pkt_len)` copies `answer_len` bytes out of the
engine-owned packet; the `secure` and `bogus` flags pass through; slot 3 is
`why_bogus` when `bogus` is set and the pointer is non-NULL, else `null`. -/
def HandleOKCallback (r : UbResult) : Answer :=
  { bytes := r.answer_packet.take r.answer_len
  , secure := r.secure
  , bogus := r.bogus
  , reason := if r.bogus && r.why_bogus.isSome then r.why_bogus else none }

/-- Outcome of one `ub_resolve` call, as supplied by the engine: the status,
the `ub_strerror` text for that status, and what the `result` out-parameter
holds afterwards (`none` when the engine left it NULL). -/
structure EngineResolve where
  status : Int
  strerrMsg : Option String
  result : Option UbResult
  deriving Repr, DecidableEq

/-- The engine's documented contract for `ub_resolve`: a zero status produces
a non-NULL result, a nonzero status leaves the out-parameter NULL (as the
worker initialized it). -/
def EngineContract (eng : EngineResolve) : Prop :=
  (eng.status = 0 → eng.result.isSome) ∧ (eng.status ≠ 0 → eng.result = none)

instance (eng : EngineResolve) : Decidable (EngineContract eng) := by
  unfold EngineContract; infer_instance

/-- The task descriptor's mutable slots and free counters: the owned name copy
(`none` once freed), the native result pointer (`none` when NULL), the async
worker's error-message slot, and counters of `free(name)` and
`ub_resolve_free(result)` calls. -/
structure WorkerState where
  name : Option String
  result : Option UbResult
  errmsg : Option String
  nameFrees : Nat
  resultFrees : Nat
  deriving Repr, DecidableEq

/-- `NodeUnboundWorker::Execute` (node_unbound.cc:477-483), run on the worker
thread over a fresh descriptor holding the owned name copy `qname`:
`ub_resolve` writes the result out-parameter; a nonzero status additionally
records the translated message via `SetErrorMessage`. -/
def Execute (qname : String) (eng : EngineResolve) : WorkerState :=
  { name := some qname
  , result := eng.result
  , errmsg := if eng.status ≠ 0 then some (nu_strerror eng.strerrMsg) else none
  , nameFrees := 0
  , resultFrees := 0 }

/-- The resource effect of `NodeUnboundWorker::HandleOKCallback`
(node_unbound.cc:505-506) on the descriptor: after marshaling the Answer it
calls `ub_resolve_free(result)` and NULLs the field. The source frees
unconditionally (guarded by `assert(result)`). -/
def handleOKFree (s : WorkerState) : WorkerState :=
  { s with result := none, resultFrees := s.resultFrees + 1 }

/-- `NodeUnboundWorker::~NodeUnboundWorker` (node_unbound.cc:465-475): free
the owned name copy if still held, and release the native result via
`ub_resolve_free` if still held; both fields are NULLed. -/
def workerDtor (s : WorkerState) : WorkerState :=
  let s := if s.name.isSome
    then { s with name := none, nameFrees := s.nameFrees + 1 }
    else s
  if s.result.isSome
    then { s with result := none, resultFrees := s.resultFrees + 1 }
    else s

/-- The full lifecycle of one task after submission, as driven by
`Nan::AsyncQueueWorker`: `Execute` on the worker thread, then on the main
thread `HandleOKCallback` when no error message was recorded (else
`HandleErrorCallback`, which touches no task-owned resource), then the worker
destructor. Returns the final descriptor state. -/
def taskLifecycle (qname : String) (eng : EngineResolve) : WorkerState :=
  let s := Execute qname eng
  let s := if s.errmsg.isNone then handleOKFree s else s
  workerDtor s

/-! ## resolve -/

/-- Observable outcome of `NodeUnbound::Resolve`: the synchronous error thrown
(if any), the `strdup`ed owned name copy (if one was made), and whether a
worker was handed to `Nan::AsyncQueueWorker`. -/
structure ResolveOutcome where
  thrown : Option String
  nameCopied : Option String
  workerQueued : Bool
  deriving Repr, DecidableEq

/-- `NodeUnbound::Resolve` (node_unbound.cc:513-558): exactly four arguments —
string name, numeric type, numeric class, function callback — each mistype
throwing synchronously before any allocation; then `strdup(name)` (whose
success is the `strdupOk` parameter), throwing on allocation failure; then a
worker is constructed around the owned copy and queued. There is no emptiness
or content check on the name string. -/
def Resolve (args : List JsValue) (strdupOk : Bool) : ResolveOutcome :=
  if args.length ≠ 4 then
    ⟨some "unbound.resolve() requires arguments.", none, false⟩
  else if ¬(arg args 0).isString then
    ⟨some "First argument must be a string.", none, false⟩
  else if ¬(arg args 1).isNumber then
    ⟨some "Second argument must be a number.", none, false⟩
  else if ¬(arg args 2).isNumber then
    ⟨some "Third argument must be a number.", none, false⟩
  else if ¬(arg args 3).isFunction then
    ⟨some "Fourth argument must be a function.", none, false⟩
  else if ¬ strdupOk then
    ⟨some "Could not allocate memory.", none, false⟩
  else
    ⟨none, some (arg args 0).asString, true⟩

/-- Valid-shape predicate for `resolve` argument vectors: exactly the checks
`NodeUnbound::Resolve` performs before any work. -/
def validResolveArgs (args : List JsValue) : Bool :=
  args.length = 4 && (arg args 0).isString && (arg args 1).isNumber
    && (arg args 2).isNumber && (arg args 3).isFunction

/-- Number of `ub_resolve` invocations eventually made for one submission:
a queued worker's `Execute` runs exactly once and contains the single
`ub_resolve` call; an unqueued submission never reaches it. -/
def resolveCalls (o : ResolveOutcome) : Nat :=
  if o.workerQueued then 1 else 0

/-! ## Claims -/

/-- C1, as stated, is false on the code: submitting with an EMPTY name string
passes every check in `NodeUnbound::Resolve` (only `IsString` is tested, never
emptiness), so nothing is thrown, the name is copied by `strdup`, a worker is
queued, and the blocking `ub_resolve` call runs once for the submission. -/
theorem resolve_empty_name_queued :
    (Resolve [JsValue.str "", JsValue.num 1, JsValue.num 1, JsValue.fn] true).thrown
        = none ∧
    (Resolve [JsValue.str "", JsValue.num 1, JsValue.num 1, JsValue.fn] true).nameCopied
        = some "" ∧
    (Resolve [JsValue.str "", JsValue.num 1, JsValue.num 1, JsValue.fn] true).workerQueued
        = true ∧
    resolveCalls (Resolve [JsValue.str "", JsValue.num 1, JsValue.num 1, JsValue.fn] true)
        = 1 := by
  decide

/-- C1 (amended): `resolve` rejects synchronously, with no name copy and no
queued worker, exactly when the name argument is NOT a string value; every
string name — the empty string included — is accepted: the name is copied, a
worker is queued and the blocking resolve call is invoked once for the
submission. -/
theorem resolve_name_validation (s : String) (t c : Int) :
    Resolve [JsValue.str s, JsValue.num t, JsValue.num c, JsValue.fn] true
        = ⟨none, some s, true⟩ ∧
    resolveCalls (Resolve [JsValue.str s, JsValue.num t, JsValue.num c, JsValue.fn] true)
        = 1 ∧
    (∀ v : JsValue, v.isString = false →
      Resolve [v, JsValue.num t, JsValue.num c, JsValue.fn] true
          = ⟨some "First argument must be a string.", none, false⟩) := by
  refine ⟨rfl, rfl, fun v hv => ?_⟩
  cases v <;> simp_all [Resolve, arg, JsValue.isString]

/-- Witness for C1 (amended): the empty-string name is accepted and queued,
while a numeric name is rejected synchronously with no work. -/
theorem resolve_name_validation_witness :
    Resolve [JsValue.str "", JsValue.num 1, JsValue.num 1, JsValue.fn] true
        = ⟨none, some "", true⟩ ∧
    Resolve [JsValue.num 0, JsValue.num 1, JsValue.num 1, JsValue.fn] true
        = ⟨some "First argument must be a string.", none, false⟩ :=
  ⟨(resolve_name_validation "" 1 1).1,
   (resolve_name_validation "" 1 1).2.2 (JsValue.num 0) rfl⟩

/-- C2: the code contradicts the documented contract. With a valid call shape
(string path, boolean flag), `NodeUnbound::AddTrustAnchorFile` reads its
selector from `info[2]` — past the two validated arguments, hence `undefined`,
which coerces to `false` — so `ub_ctx_add_ta_file` is invoked regardless of the
boolean the caller passed in the documented second position, and the
`ub_ctx_add_ta_autr` branch is unreachable: at the failing input
`addTrustAnchorFile("f", true)` the plain-file variant is called. -/
theorem addTrustAnchorFile_flag_ignored (fname : String) (b : Bool) :
    AddTrustAnchorFile [JsValue.str fname, JsValue.boolean b]
      = ⟨none, some (TaCall.ta_file fname)⟩ := by
  rfl

/-- C3, as stated, is false on the code: when the engine string exceeds the
256-character cap, `nu_strerror` does not truncate it — it REPLACES it with
the fixed fallback. At a 257-character engine string the produced message is
`"libunbound: unknown error"`, which is not a prefix (hence not a truncation)
of the prefixed engine string. -/
theorem nu_strerror_not_truncating :
    nu_strerror (some (String.mk (List.replicate 257 'a')))
        = "libunbound: unknown error" ∧
    ((nu_strerror (some (String.mk (List.replicate 257 'a')))).data).isPrefixOf
        (("libunbound: " ++ String.mk (List.replicate 257 'a')).data) = false := by
  constructor
  · set_option maxRecDepth 4000 in decide
  · set_option maxRecDepth 4000 in decide

/-- C3 (amended): every surfaced engine message carries the
`"libunbound: "` traceability prefix; an engine string of at most 256
characters is surfaced verbatim after the prefix, a longer one is replaced
by the fixed fallback `"unknown error"` (substitution, not truncation), and
the produced message never exceeds 268 characters — the buffer use is
bounded. -/
theorem nu_strerror_bounded (msg : String) :
    nu_strerror (some msg)
        = (if msg.length > 256 then "libunbound: " ++ "unknown error"
           else "libunbound: " ++ msg) ∧
    ("libunbound: ".data).isPrefixOf ((nu_strerror (some msg)).data) = true ∧
    (nu_strerror (some msg)).length ≤ 268 := by
  have h12 : "libunbound: ".length = 12 := rfl
  unfold nu_strerror
  by_cases h : msg.length > 256
  · refine ⟨by simp [h], ?_, ?_⟩
    · simp [h, String.data_append, List.isPrefixOf_iff_prefix]
    · simp [h]
      decide
  · refine ⟨by simp [h], ?_, ?_⟩
    · simp [h, String.data_append, List.isPrefixOf_iff_prefix]
    · simp [h, String.length_append, h12]
      omega

/-- C4: on the success path the delivered Answer is a faithful marshal of the
engine result — the bytes are the `answer_len`-byte copy of the answer packet
(equal to the packet whenever the engine supplies a packet of exactly that
length), the `secure` and `bogus` flags pass through unchanged, the reason is
the engine diagnostic exactly when `bogus` is set and a diagnostic exists and
is JavaScript `null` otherwise (never a fabricated string); hence flags the
engine never sets simultaneously are never delivered simultaneously. -/
theorem handleOK_marshals (r : UbResult)
    (hlen : r.answer_packet.length = r.answer_len) :
    (HandleOKCallback r).bytes = r.answer_packet ∧
    (HandleOKCallback r).secure = r.secure ∧
    (HandleOKCallback r).bogus = r.bogus ∧
    (∀ s : String, r.bogus = true → r.why_bogus = some s →
        (HandleOKCallback r).reason = some s) ∧
    (r.bogus = false → (HandleOKCallback r).reason = none) ∧
    (r.why_bogus = none → (HandleOKCallback r).reason = none) ∧
    ((HandleOKCallback r).reason = none ∨ (HandleOKCallback r).reason = r.why_bogus) ∧
    (¬(r.secure = true ∧ r.bogus = true) →
        ¬((HandleOKCallback r).secure = true ∧ (HandleOKCallback r).bogus = true)) := by
  refine ⟨?_, rfl, rfl, ?_, ?_, ?_, ?_, ?_⟩
  · simp [HandleOKCallback, ← hlen]
  · intro s hb hw
    simp [HandleOKCallback, hb, hw]
  · intro hb
    simp [HandleOKCallback, hb]
  · intro hw
    simp [HandleOKCallback, hw]
  · by_cases hb : r.bogus <;> cases hw : r.why_bogus <;>
      simp [HandleOKCallback, hb, hw]
  · intro hne hboth
    exact hne hboth

/-- Witness for C4: a secure, non-bogus result with a three-byte packet is
delivered with the same bytes and flags and an absent reason. -/
theorem handleOK_marshals_witness :
    (HandleOKCallback ⟨[1, 2, 3], 3, true, false, none⟩).bytes = [1, 2, 3] ∧
    (HandleOKCallback ⟨[1, 2, 3], 3, true, false, none⟩).secure = true ∧
    (HandleOKCallback ⟨[1, 2, 3], 3, true, false, none⟩).bogus = false ∧
    (HandleOKCallback ⟨[1, 2, 3], 3, true, false, none⟩).reason = none :=
  ⟨(handleOK_marshals ⟨[1, 2, 3], 3, true, false, none⟩ rfl).1,
   (handleOK_marshals ⟨[1, 2, 3], 3, true, false, none⟩ rfl).2.1,
   (handleOK_marshals ⟨[1, 2, 3], 3, true, false, none⟩ rfl).2.2.1,
   (handleOK_marshals ⟨[1, 2, 3], 3, true, false, none⟩ rfl).2.2.2.2.1 rfl⟩

/-- C5, as stated, is false on the code: with `ub_ctx_create` succeeding and
`ub_ctx_debugout` reporting status 1, `NodeUnbound::New` throws the setup
failure while `ub->ctx` STILL holds the native state — no `ub_ctx_delete`
happens on that path, so the state is not released before the error is
surfaced. -/
theorem new_setup_failure_counterexample :
    (New ⟨true, 1, 0⟩).thrown.isSome = true ∧
    (New ⟨true, 1, 0⟩).ctxHeld = true ∧
    (New ⟨true, 1, 0⟩).deletesInNew = 0 := by
  decide

/-- C5 (amended): when a post-creation setup call (`ub_ctx_debugout` or
`ub_ctx_debuglevel`) fails, the InitError is surfaced while the
partially-created native state is still held by the wrapped handle and no
release happens during `New` itself; the state is released only later, when
the handle destructor runs — which then deletes it exactly once. -/
theorem new_setup_failure_keeps_ctx (env : NewEnv)
    (hc : env.createOk = true)
    (hf : env.debugoutErr ≠ 0 ∨ (env.debugoutErr = 0 ∧ env.debuglevelErr ≠ 0)) :
    (New env).thrown.isSome = true ∧
    (New env).ctxHeld = true ∧
    (New env).deletesInNew = 0 ∧
    destructor ⟨true⟩ = (⟨false⟩, 1) := by
  rcases hf with h | ⟨h0, h1⟩
  · simp [New, hc, h, destructor]
  · simp [New, hc, h0, h1, destructor]

/-- Witness for C5 (amended): creation succeeds, `ub_ctx_debugout` reports
status 1, and the outcome holds the state while throwing. -/
theorem new_setup_failure_keeps_ctx_witness :
    (New ⟨true, 1, 0⟩).thrown.isSome = true ∧
    (New ⟨true, 1, 0⟩).ctxHeld = true :=
  ⟨(new_setup_failure_keeps_ctx ⟨true, 1, 0⟩ rfl (Or.inl (by decide))).1,
   (new_setup_failure_keeps_ctx ⟨true, 1, 0⟩ rfl (Or.inl (by decide))).2.1⟩

/-- C6: after `Execute` returns, exactly one of the descriptor slots is
populated — a nonzero `ub_resolve` status records only the translated failure
message and leaves the result slot empty, a zero status records only the
result; never both, never neither (under the engine contract for
`ub_resolve`). -/
theorem execute_exactly_one (qname : String) (eng : EngineResolve)
    (h : EngineContract eng) :
    (eng.status ≠ 0 →
        (Execute qname eng).errmsg = some (nu_strerror eng.strerrMsg) ∧
        (Execute qname eng).result = none) ∧
    (eng.status = 0 →
        (Execute qname eng).errmsg = none ∧
        (Execute qname eng).result.isSome = true) ∧
    ¬((Execute qname eng).errmsg.isSome = true ∧
        (Execute qname eng).result.isSome = true) ∧
    ((Execute qname eng).errmsg.isSome = true ∨
        (Execute qname eng).result.isSome = true) := by
  obtain ⟨hok, hfail⟩ := h
  by_cases hs : eng.status = 0
  · simp [Execute, hs, hok hs]
  · simp [Execute, hs, hfail hs]

/-- Witness for C6: a successful status-0 resolve populates only the result
slot, and a status -1 resolve with a NULL result populates only the failure
message. -/
theorem execute_exactly_one_witness :
    ((Execute "q" ⟨0, none, some ⟨[], 0, false, false, none⟩⟩).errmsg = none ∧
      (Execute "q" ⟨0, none, some ⟨[], 0, false, false, none⟩⟩).result.isSome = true) ∧
    ((Execute "q" ⟨-1, some "error", none⟩).errmsg
          = some (nu_strerror (some "error")) ∧
      (Execute "q" ⟨-1, some "error", none⟩).result = none) :=
  ⟨(execute_exactly_one "q" ⟨0, none, some ⟨[], 0, false, false, none⟩⟩
      (by decide)).2.1 rfl,
   (execute_exactly_one "q" ⟨-1, some "error", none⟩ (by decide)).1 (by decide)⟩

/-- C7: over the whole task lifecycle — execute, completion handling on
either path, worker destructor — the owned name copy is freed exactly once
and ends NULLed, and the native result, exactly when the engine produced one
(non-null), is released exactly once via `ub_resolve_free` (the only release
routine the model counts) and ends NULLed: no leak, no double free, on the
success and the failure path alike. -/
theorem task_resources_freed_once (qname : String) (eng : EngineResolve)
    (h : EngineContract eng) :
    (taskLifecycle qname eng).nameFrees = 1 ∧
    (taskLifecycle qname eng).name = none ∧
    (taskLifecycle qname eng).resultFrees
        = (if eng.result.isSome then 1 else 0) ∧
    (taskLifecycle qname eng).result = none := by
  obtain ⟨hok, hfail⟩ := h
  by_cases hs : eng.status = 0
  · obtain ⟨r, hr⟩ := Option.isSome_iff_exists.mp (hok hs)
    simp [taskLifecycle, Execute, handleOKFree, workerDtor, hs, hr]
  · simp [taskLifecycle, Execute, handleOKFree, workerDtor, hs, hfail hs]

/-- Witness for C7: a successful task frees the name once and the result once;
a failed task (status -1, NULL result) frees the name once and never calls
`ub_resolve_free`. -/
theorem task_resources_freed_once_witness :
    ((taskLifecycle "q" ⟨0, none, some ⟨[7], 1, true, false, none⟩⟩).nameFrees = 1 ∧
      (taskLifecycle "q" ⟨0, none, some ⟨[7], 1, true, false, none⟩⟩).resultFrees
        = (if (some (⟨[7], 1, true, false, none⟩ : UbResult)).isSome then 1 else 0)) ∧
    ((taskLifecycle "q" ⟨-1, some "fail", none⟩).nameFrees = 1 ∧
      (taskLifecycle "q" ⟨-1, some "fail", none⟩).resultFrees
        = (if (none : Option UbResult).isSome then 1 else 0)) :=
  ⟨⟨(task_resources_freed_once "q" ⟨0, none, some ⟨[7], 1, true, false, none⟩⟩
        (by decide)).1,
    (task_resources_freed_once "q" ⟨0, none, some ⟨[7], 1, true, false, none⟩⟩
        (by decide)).2.2.1⟩,
   ⟨(task_resources_freed_once "q" ⟨-1, some "fail", none⟩ (by decide)).1,
    (task_resources_freed_once "q" ⟨-1, some "fail", none⟩ (by decide)).2.2.1⟩⟩

/-- C8: the context handle destructor releases the native state (the `ctx`
field is NULL afterwards) and is idempotent — running it again on the
resulting state performs no `ub_ctx_delete` and changes nothing, so across any
two runs the native state is deleted at most once. -/
theorem destructor_idempotent (s : CtxState) :
    (destructor s).1.ctx = false ∧
    destructor (destructor s).1 = ((destructor s).1, 0) ∧
    (destructor s).2 + (destructor (destructor s).1).2 ≤ 1 := by
  obtain ⟨b⟩ := s
  cases b <;> decide

/-- C9: every malformed `resolve` call — wrong argument count, non-string
name, non-number type or class, non-function callback — throws synchronously
and performs no observable work: no name copy is allocated, no worker is
queued and `ub_resolve` is never invoked for that submission; conversely, a
submission that did queue a worker threw nothing, so the argument error never
surfaces after submission succeeds. -/
theorem resolve_arg_errors_synchronous (args : List JsValue) (ok : Bool) :
    (validResolveArgs args = false →
        (Resolve args ok).thrown.isSome = true ∧
        (Resolve args ok).nameCopied = none ∧
        (Resolve args ok).workerQueued = false ∧
        resolveCalls (Resolve args ok) = 0) ∧
    ((Resolve args ok).workerQueued = true → (Resolve args ok).thrown = none) := by
  unfold Resolve validResolveArgs resolveCalls
  split_ifs <;> simp_all

/-- Witness for C9: a three-argument call (missing callback) throws with no
work, and a well-formed call that queued its worker threw nothing. -/
theorem resolve_arg_errors_synchronous_witness :
    ((Resolve [JsValue.str "x", JsValue.num 1, JsValue.num 1] true).thrown.isSome
        = true ∧
      (Resolve [JsValue.str "x", JsValue.num 1, JsValue.num 1] true).nameCopied
        = none ∧
      (Resolve [JsValue.str "x", JsValue.num 1, JsValue.num 1] true).workerQueued
        = false ∧
      resolveCalls (Resolve [JsValue.str "x", JsValue.num 1, JsValue.num 1] true)
        = 0) ∧
    (Resolve [JsValue.str "x", JsValue.num 1, JsValue.num 1, JsValue.fn] true).thrown
        = none :=
  ⟨(resolve_arg_errors_synchronous
      [JsValue.str "x", JsValue.num 1, JsValue.num 1] true).1 rfl,
   (resolve_arg_errors_synchronous
      [JsValue.str "x", JsValue.num 1, JsValue.num 1, JsValue.fn] true).2 rfl⟩

/-- C10: with a valid string key and engine status zero, `getOption` returns
the explicit JavaScript `null` when the engine left the value pointer NULL
(no error, no empty string, and nothing to free), and otherwise returns the
engine string and `free`s the engine-allocated buffer before returning. -/
theorem getOption_success (key : String) (eng : GetOptionEngine)
    (h : eng.status = 0) :
    (eng.value = none →
        GetOption [JsValue.str key] eng = ⟨.retNull, false⟩) ∧
    (∀ v : String, eng.value = some v →
        GetOption [JsValue.str key] eng = ⟨.retStr v, true⟩) := by
  constructor
  · intro hv
    simp [GetOption, arg, JsValue.isString, h, hv]
  · intro v hv
    simp [GetOption, arg, JsValue.isString, h, hv]

/-- Witness for C10: a NULL engine value returns `null` with nothing freed;
an engine value `"v"` is returned with the buffer freed. -/
theorem getOption_success_witness :
    GetOption [JsValue.str "k"] ⟨0, none, none⟩ = ⟨.retNull, false⟩ ∧
    GetOption [JsValue.str "k"] ⟨0, none, some "v"⟩ = ⟨.retStr "v", true⟩ :=
  ⟨(getOption_success "k" ⟨0, none, none⟩ rfl).1 rfl,
   (getOption_success "k" ⟨0, none, some "v"⟩ rfl).2 "v" rfl⟩
